import Mathlib

/-!
Verification of the maticalif storefront client's state containers
(src/src/context/AuthContext.tsx): the cart store (CartProvider) and the
session store (AuthProvider). The TypeScript code is shallowly embedded:
React state becomes explicit state passing, the toast side channel becomes
returned `Toast` values, the Supabase backend becomes an explicit `Backend`
record of responses, and thrown/caught JS exceptions become `Except`.
Numbers (prices, quantities) are modelled as `Int`.
-/

/-- A toast notification as produced by the `toast({title, description, variant?})`
calls in the source. -/
structure Toast where
  title : String
  description : String
  variant : Option String
deriving DecidableEq, Repr

/-- A cart entry (type `CartItem` in the source): product identifier, display
title, unit price, image reference, quantity. -/
structure CartItem where
  productId : String
  title : String
  price : Int
  imageUrl : String
  quantity : Int
deriving DecidableEq, Repr

/-- A product as passed to `addToCart` (fields of `Product` used by the cart
code: `id`, `name`, `price`, `image`). -/
structure Product where
  id : String
  name : String
  price : Int
  image : String
deriving DecidableEq, Repr

/-- `addToCart(product, quantity = 1)` from CartProvider: if an entry with the
same product id exists, every matching entry's quantity is increased by
`quantity` and a "Cart Updated" toast is raised; otherwise a new entry is
appended and an "Added to Cart" toast is raised. Returns the new item list and
the toast. -/
def addToCart (items : List CartItem) (product : Product) (quantity : Int := 1) :
    List CartItem × Toast :=
  match items.find? (fun item => item.productId == product.id) with
  | some existing =>
      (items.map (fun item =>
          if item.productId == product.id then
            { item with quantity := item.quantity + quantity }
          else item),
       { title := "Cart Updated",
         description := product.name ++ " quantity increased to "
           ++ toString (existing.quantity + quantity),
         variant := none })
  | none =>
      (items ++ [{ productId := product.id, title := product.name,
                   price := product.price, imageUrl := product.image,
                   quantity := quantity }],
       { title := "Added to Cart",
         description := product.name ++ " has been added to your cart",
         variant := none })

/-- `removeFromCart(productId)` from CartProvider: raises a "Removed from Cart"
toast naming the first matching entry when one exists, and filters out all
entries with the given product id. -/
def removeFromCart (items : List CartItem) (productId : String) :
    List CartItem × Option Toast :=
  (items.filter (fun item => item.productId != productId),
   (items.find? (fun i => i.productId == productId)).map (fun item =>
     { title := "Removed from Cart",
       description := item.title ++ " has been removed",
       variant := some "destructive" }))

/-- `updateQuantity(productId, quantity)` from CartProvider: delegates to
`removeFromCart` when `quantity < 1`, otherwise replaces the quantity of every
entry with the given product id (no toast). -/
def updateQuantity (items : List CartItem) (productId : String) (quantity : Int) :
    List CartItem × Option Toast :=
  if quantity < 1 then
    removeFromCart items productId
  else
    (items.map (fun item =>
        if item.productId == productId then { item with quantity := quantity }
        else item),
     none)

/-- `clearCart()` from CartProvider: empties the collection and raises a
"Cart Cleared" toast. -/
def clearCart (_items : List CartItem) : List CartItem × Toast :=
  ([],
   { title := "Cart Cleared",
     description := "All items have been removed from your cart",
     variant := none })

/-- `totalItems` from CartProvider: `items.reduce((sum, item) => sum + item.quantity, 0)`. -/
def totalItems (items : List CartItem) : Int :=
  items.foldl (fun sum item => sum + item.quantity) 0

/-- `totalPrice` from CartProvider: `items.reduce((sum, item) => sum + item.price * item.quantity, 0)`. -/
def totalPrice (items : List CartItem) : Int :=
  items.foldl (fun sum item => sum + item.price * item.quantity) 0

/-- One call to a cart mutation, with its arguments. -/
inductive CartOp where
  | add (p : Product) (q : Int)
  | remove (pid : String)
  | update (pid : String) (q : Int)
  | clear
deriving DecidableEq, Repr

/-- The cart state after one mutation (toasts discarded). -/
def applyOp (items : List CartItem) : CartOp → List CartItem
  | .add p q => (addToCart items p q).1
  | .remove pid => (removeFromCart items pid).1
  | .update pid q => (updateQuantity items pid q).1
  | .clear => (clearCart items).1

/-- The cart state after a sequence of mutations. -/
def runOps (items : List CartItem) (ops : List CartOp) : List CartItem :=
  ops.foldl applyOp items

/-- The cart state after a sequence of `addToCart` calls for one product `p`
with the given quantity arguments. -/
def addSeq (p : Product) (qs : List Int) (items : List CartItem) : List CartItem :=
  qs.foldl (fun c q => (addToCart c p q).1) items

/-- The fresh entry `addToCart` creates for product `p` with quantity `q`. -/
def mkItem (p : Product) (q : Int) : CartItem :=
  { productId := p.id, title := p.name, price := p.price, imageUrl := p.image,
    quantity := q }

/-! ### Persistence (localStorage + JSON) -/

/-- A JSON value, the shape of what `JSON.stringify` writes to and `JSON.parse`
reads from the `cart` localStorage key. -/
inductive Json where
  | str (s : String)
  | num (n : Int)
  | arr (xs : List Json)
  | obj (fields : List (String × Json))

/-- `JSON.stringify` of one cart entry: an object with the entry's five fields
in declaration order. -/
def encodeItem (i : CartItem) : Json :=
  .obj [("productId", .str i.productId), ("title", .str i.title),
        ("price", .num i.price), ("imageUrl", .str i.imageUrl),
        ("quantity", .num i.quantity)]

/-- `JSON.stringify(items)`: the persisted representation of the cart. -/
def encodeCart (items : List CartItem) : Json :=
  .arr (items.map encodeItem)

/-- Field lookup in a parsed JSON object. -/
def lookupField (fields : List (String × Json)) (k : String) : Option Json :=
  (fields.find? (fun kv => kv.1 == k)).map (fun kv => kv.2)

/-- Reading a parsed JSON value back as a `CartItem`, the way the startup code
uses `JSON.parse(saved)` elements as `CartItem` values. -/
def decodeItem : Json → Option CartItem
  | .obj fields =>
      match lookupField fields "productId", lookupField fields "title",
            lookupField fields "price", lookupField fields "imageUrl",
            lookupField fields "quantity" with
      | some (.str pid), some (.str t), some (.num pr), some (.str img),
        some (.num q) => some { productId := pid, title := t, price := pr,
                                imageUrl := img, quantity := q }
      | _, _, _, _, _ => none
  | _ => none

/-- Reading a list of parsed JSON values back as cart entries. -/
def decodeItems : List Json → Option (List CartItem)
  | [] => some []
  | j :: js =>
      match decodeItem j, decodeItems js with
      | some i, some is => some (i :: is)
      | _, _ => none

/-- Deserializing the persisted cart value back into a cart collection. -/
def decodeCart : Json → Option (List CartItem)
  | .arr xs => decodeItems xs
  | _ => none

/-- What `localStorage.getItem('cart')` can yield at startup: no stored value
(`getItem` returns null); the stored empty string (present, not valid JSON,
but falsy in JS); a nonempty stored string that is valid JSON (parsing to the
given value); or a nonempty stored string that is not valid JSON
(`JSON.parse` throws a SyntaxError on it). -/
inductive StoredCart where
  | absent
  | emptyString
  | wellFormed (j : Json)
  | malformed

/-- The `CartProvider` state initializer
`const saved = localStorage.getItem('cart'); return saved ? JSON.parse(saved) : []`.
The condition is a truthiness check, so both a null `getItem` result and a
stored empty string take the `[]` branch without ever calling `JSON.parse`;
for a truthy (nonempty) stored string the parse result is used unvalidated,
and there is no try/catch around `JSON.parse`, so a nonempty malformed stored
value makes initialization fail. -/
def cartInit : StoredCart → Except String Json
  | .absent => .ok (Json.arr [])
  | .emptyString => .ok (Json.arr [])
  | .wellFormed j => .ok j
  | .malformed => .error "SyntaxError: JSON.parse"

/-! ### Session store (AuthProvider) -/

/-- The application user value (`AppUser` in the source). -/
structure AppUser where
  id : String
  name : String
  email : String
  avatar : Option String
deriving DecidableEq, Repr

/-- A row of the `profiles` table as selected by `fetchProfile`
(`id, full_name, avatar, created_at`; the timestamp is unused by the code). -/
structure ProfileRow where
  id : String
  full_name : Option String
  avatar : Option String
deriving DecidableEq, Repr

/-- A database error as returned by the profile query (`error.code` is compared
against the string PGRST116). -/
structure DbError where
  code : String
  message : String
deriving DecidableEq, Repr

/-- The response of `supabase.from('profiles').select(...).eq('id', uid).single()`:
a data row and/or an error. -/
structure SingleResp where
  data? : Option ProfileRow
  error? : Option DbError
deriving DecidableEq, Repr

/-- An auth-service error (`err.message` may be absent). -/
structure AuthError where
  message : Option String
deriving DecidableEq, Repr

/-- The backend (Supabase) behavior relevant to one `signIn`/`signOut` call:
the credential-check response (`error`, or `data.user?.id`), the current
session's email, the profile query response per user id, and the sign-out
error if any. -/
structure Backend where
  signInResp : Except AuthError (Option String)
  sessionEmail : Option String
  profileSingle : String → SingleResp
  signOutError : Option AuthError

/-- The `if (data) {...} else setUser(null)` tail of `fetchProfile`: builds the
`AppUser` from the profile row and the session email. -/
def profileData (email : String) : Option ProfileRow → Option AppUser
  | some d => some { id := d.id, name := d.full_name.getD "", email := email,
                     avatar := d.avatar }
  | none => none

/-- `fetchProfile(uid)` from AuthProvider, as the user value it stores: null
for a null uid; otherwise queries the profile row, treats an error whose code
is not PGRST116 as a thrown error that its own catch turns into a null user,
and otherwise stores the row's user (or null when no row). Total because
`fetchProfile` catches all of its own errors. -/
def fetchProfile (be : Backend) (uid : Option String) : Option AppUser :=
  match uid with
  | none => none
  | some u =>
      let email := be.sessionEmail.getD ""
      let resp := be.profileSingle u
      match resp.error? with
      | some e =>
          if e.code != "PGRST116" then none
          else profileData email resp.data?
      | none => profileData email resp.data?

/-- The try-block of `signIn`: throws the credential-check error if present,
otherwise loads the profile and produces the success toast. -/
def signInTry (be : Backend) : Except AuthError (Option AppUser × Toast) :=
  match be.signInResp with
  | .error e => .error e
  | .ok uid =>
      .ok (fetchProfile be uid,
           { title := "Signed in", description := "Welcome back!", variant := none })

/-- What one `signIn` call leaves behind: its returned boolean, the stored user
afterwards, and the toasts raised. -/
structure SignInOutcome where
  returned : Bool
  user : Option AppUser
  toasts : List Toast
deriving DecidableEq, Repr

/-- `signIn(email, password)` from AuthProvider, given the backend responses
and the stored user before the call. The catch block converts any thrown
backend error into a `false` return plus a "Sign in failed" toast, so the
result is always `.ok`: nothing propagates to the caller. -/
def signIn (be : Backend) (user0 : Option AppUser) : Except AuthError SignInOutcome :=
  match signInTry be with
  | .ok (u, t) => .ok { returned := true, user := u, toasts := [t] }
  | .error err =>
      .ok { returned := false, user := user0,
            toasts := [{ title := "Sign in failed",
                         description := err.message.getD "Invalid credentials",
                         variant := none }] }

/-- The try-block of `signOut`: throws the backend error if present, otherwise
clears the user and produces the "Logged out" toast. -/
def signOutTry (be : Backend) : Except AuthError (Option AppUser × Toast) :=
  match be.signOutError with
  | some e => .error e
  | none => .ok (none, { title := "Logged out",
                         description := "You have been signed out.",
                         variant := none })

/-- `signOut()` from AuthProvider: on a backend error the catch block leaves
the stored user untouched and raises a "Logout failed" toast; on success the
user is cleared and a "Logged out" toast is raised. Always `.ok`: the catch
swallows the exception. -/
def signOut (be : Backend) (user0 : Option AppUser) :
    Except AuthError (Option AppUser × List Toast) :=
  match signOutTry be with
  | .ok (u, t) => .ok (u, [t])
  | .error _ =>
      .ok (user0, [{ title := "Logout failed", description := "Please try again.",
                     variant := none }])

/-! ### Concrete sample values (used by witnesses and counterexamples) -/

/-- A sample product. -/
def sampleProduct : Product :=
  { id := "p1", name := "Widget", price := 10, image := "widget.png" }

/-- A sample cart entry. -/
def sampleItem : CartItem :=
  { productId := "p1", title := "Widget", price := 10, imageUrl := "widget.png",
    quantity := 2 }

/-- A backend whose credential check fails. -/
def beSignInFail : Backend :=
  { signInResp := .error { message := some "Invalid login credentials" },
    sessionEmail := none,
    profileSingle := fun _ => { data? := none, error? := none },
    signOutError := none }

/-- A backend where credentials succeed but the profile row does not exist:
`.single()` reports the PGRST116 no-rows error with null data. -/
def beProfileMissing : Backend :=
  { signInResp := .ok (some "u1"),
    sessionEmail := some "user@example.com",
    profileSingle := fun _ =>
      { data? := none, error? := some { code := "PGRST116", message := "No rows" } },
    signOutError := none }

/-- A backend whose sign-out call reports an error. -/
def beSignOutFail : Backend :=
  { signInResp := .ok none,
    sessionEmail := none,
    profileSingle := fun _ => { data? := none, error? := none },
    signOutError := some { message := some "network error" } }

/-- A sample signed-in user. -/
def sampleUser : AppUser :=
  { id := "u1", name := "Ada", email := "user@example.com", avatar := none }

/-! ### Theorems -/

theorem totalItems_foldl (items : List CartItem) (a : Int) :
    items.foldl (fun sum item => sum + item.quantity) a
      = a + (items.map CartItem.quantity).sum := by
  induction items generalizing a with
  | nil => simp
  | cons x xs ih =>
    simp only [List.foldl_cons, List.map_cons, List.sum_cons, ih]
    ring

theorem totalPrice_foldl (items : List CartItem) (a : Int) :
    items.foldl (fun sum item => sum + item.price * item.quantity) a
      = a + (items.map (fun i => i.price * i.quantity)).sum := by
  induction items generalizing a with
  | nil => simp
  | cons x xs ih =>
    simp only [List.foldl_cons, List.map_cons, List.sum_cons, ih]
    ring

/-- C4: `totalItems` equals the sum of all entries' quantities, `totalPrice`
equals the sum over all entries of unit price times quantity, and both are 0
on the empty cart. -/
theorem totals_are_sums (items : List CartItem) :
    totalItems items = (items.map CartItem.quantity).sum
    ∧ totalPrice items = (items.map (fun i => i.price * i.quantity)).sum
    ∧ totalItems [] = 0 ∧ totalPrice [] = 0 := by
  refine ⟨?_, ?_, rfl, rfl⟩
  · simpa using totalItems_foldl items 0
  · simpa using totalPrice_foldl items 0

/-- C3: for every cart state, product id and quantity `q < 1`,
`updateQuantity` produces exactly the same resulting cart state and the same
notification as `removeFromCart`. -/
theorem updateQuantity_lt_one_eq_remove (items : List CartItem) (pid : String)
    (q : Int) (h : q < 1) :
    updateQuantity items pid q = removeFromCart items pid := by
  simp [updateQuantity, h]

/-- Witness for C3 at a concrete cart, id and quantity 0. -/
theorem updateQuantity_lt_one_eq_remove_witness :
    updateQuantity [sampleItem] "p1" 0 = removeFromCart [sampleItem] "p1" :=
  updateQuantity_lt_one_eq_remove [sampleItem] "p1" 0 (by decide)

/-- Counterexample for C8 as stated: the stored empty string is present under
the cart key and is not valid serialized cart text (`JSON.parse` would throw
on it), yet initialization does not fail — the truthiness check
`saved ? JSON.parse(saved) : []` treats the empty string as falsy, never calls
`JSON.parse`, and starts with the empty cart. -/
theorem cartInit_empty_string_counterexample :
    cartInit StoredCart.emptyString = Except.ok (Json.arr [])
    ∧ ∀ msg, cartInit StoredCart.emptyString ≠ Except.error msg := by
  refine ⟨rfl, ?_⟩
  intro msg h
  simp [cartInit] at h

/-- C8 (amended): a present, nonempty persisted cart value that is not valid
JSON makes the cart store's initialization fail with the unguarded parse
error; in particular it does not produce any cart value (empty or otherwise).
The one present-but-invalid value this does not cover is the empty string,
which is falsy and yields the empty cart without parsing. -/
theorem cartInit_malformed_fails :
    cartInit StoredCart.malformed = Except.error "SyntaxError: JSON.parse"
    ∧ ∀ j : Json, cartInit StoredCart.malformed ≠ Except.ok j := by
  refine ⟨rfl, ?_⟩
  intro j h
  simp [cartInit] at h

/-- C6: when the backend credential check fails, `signIn` returns false, the
stored identity is unchanged (so null remains null), and a "Sign in failed"
notification is raised; moreover, for every backend and prior state, `signIn`
never propagates an exception — its result is always `.ok`. -/
theorem signIn_failure_caught (be : Backend) (e : AuthError) (user0 : Option AppUser)
    (h : be.signInResp = .error e) :
    signIn be user0
      = .ok { returned := false, user := user0,
              toasts := [{ title := "Sign in failed",
                           description := e.message.getD "Invalid credentials",
                           variant := none }] }
    ∧ ∀ (be' : Backend) (u : Option AppUser), ∃ out, signIn be' u = .ok out := by
  constructor
  · simp [signIn, signInTry, h]
  · intro be' u
    unfold signIn
    cases hsi : signInTry be' with
    | error e' => exact ⟨_, rfl⟩
    | ok p => obtain ⟨u', t⟩ := p; exact ⟨_, rfl⟩

/-- Witness for C6: a concrete backend with failing credentials, starting from
a null identity. -/
theorem signIn_failure_caught_witness :
    signIn beSignInFail none
      = .ok { returned := false, user := none,
              toasts := [{ title := "Sign in failed",
                           description := "Invalid login credentials",
                           variant := none }] } :=
  (signIn_failure_caught beSignInFail { message := some "Invalid login credentials" }
    none rfl).1

/-- C7: when the credential check succeeds for user id `uid` but the profile
query reports the no-rows outcome (error code PGRST116, null data), `signIn`
returns true with a success toast and the stored identity is null. -/
theorem signIn_profile_not_found (be : Backend) (uid : String) (e : DbError)
    (user0 : Option AppUser)
    (h1 : be.signInResp = .ok (some uid))
    (h2 : be.profileSingle uid = { data? := none, error? := some e })
    (h3 : e.code = "PGRST116") :
    signIn be user0
      = .ok { returned := true, user := none,
              toasts := [{ title := "Signed in", description := "Welcome back!",
                           variant := none }] } := by
  simp [signIn, signInTry, h1, fetchProfile, h2, h3, profileData]

/-- Witness for C7: a concrete backend whose profile row is missing. -/
theorem signIn_profile_not_found_witness :
    signIn beProfileMissing none
      = .ok { returned := true, user := none,
              toasts := [{ title := "Signed in", description := "Welcome back!",
                           variant := none }] } :=
  signIn_profile_not_found beProfileMissing "u1" { code := "PGRST116", message := "No rows" }
    none rfl rfl rfl

/-- C10: when the backend sign-out call reports an error, `signOut` leaves the
stored identity unchanged, raises a "Logout failed" toast and swallows the
exception (result is `.ok`); the identity is cleared only when the backend
reports no error. -/
theorem signOut_error_keeps_user (be : Backend) (user0 : Option AppUser) :
    (∀ e, be.signOutError = some e →
      signOut be user0
        = .ok (user0, [{ title := "Logout failed", description := "Please try again.",
                         variant := none }]))
    ∧ (be.signOutError = none →
      signOut be user0
        = .ok (none, [{ title := "Logged out",
                        description := "You have been signed out.",
                        variant := none }])) := by
  constructor
  · intro e he
    simp [signOut, signOutTry, he]
  · intro he
    simp [signOut, signOutTry, he]

/-- Witness for C10: a concrete failing sign-out, starting from a signed-in
user who stays stored. -/
theorem signOut_error_keeps_user_witness :
    signOut beSignOutFail (some sampleUser)
      = .ok (some sampleUser,
             [{ title := "Logout failed", description := "Please try again.",
                variant := none }]) :=
  (signOut_error_keeps_user beSignOutFail (some sampleUser)).1
    { message := some "network error" } rfl

theorem addToCart_empty (p : Product) (q : Int) :
    (addToCart [] p q).1 = [mkItem p q] := by
  simp [addToCart, mkItem]

theorem addToCart_existing_single (p : Product) (a q : Int) :
    (addToCart [mkItem p a] p q).1 = [mkItem p (a + q)] := by
  simp [addToCart, mkItem]

theorem addSeq_loaded (p : Product) (qs : List Int) (a : Int) :
    addSeq p qs [mkItem p a] = [mkItem p (a + qs.sum)] := by
  induction qs generalizing a with
  | nil => simp [addSeq]
  | cons q qs ih =>
    show addSeq p qs (addToCart [mkItem p a] p q).1 = _
    rw [addToCart_existing_single, ih, List.sum_cons, add_assoc]

/-- C1: for every nonempty sequence of `addToCart` calls with the same product
(each with its quantity argument), the cart afterwards contains exactly one
entry for that product id, whose quantity is the sum of the quantities added. -/
theorem addToCart_accumulates (p : Product) (qs : List Int) (h : qs ≠ []) :
    ((addSeq p qs []).filter (fun i => i.productId == p.id)).length = 1
    ∧ ∀ i ∈ addSeq p qs [], i.productId = p.id → i.quantity = qs.sum := by
  obtain ⟨q, qs', rfl⟩ := List.exists_cons_of_ne_nil h
  have hrun : addSeq p (q :: qs') [] = [mkItem p (q + qs'.sum)] := by
    show addSeq p qs' (addToCart [] p q).1 = _
    rw [addToCart_empty, addSeq_loaded]
  rw [hrun]
  constructor
  · simp [mkItem]
  · intro i hi _
    simp only [List.mem_singleton] at hi
    subst hi
    simp [mkItem]

/-- Witness for C1: adding the sample product with quantities 1 and 2. -/
theorem addToCart_accumulates_witness :
    ((addSeq sampleProduct [1, 2] []).filter
        (fun i => i.productId == sampleProduct.id)).length = 1
    ∧ ∀ i ∈ addSeq sampleProduct [1, 2] [], i.productId = sampleProduct.id →
        i.quantity = ([1, 2] : List Int).sum :=
  addToCart_accumulates sampleProduct [1, 2] (by decide)

theorem decodeItem_encodeItem (i : CartItem) :
    decodeItem (encodeItem i) = some i := rfl

theorem decodeItems_map_encodeItem (items : List CartItem) :
    decodeItems (items.map encodeItem) = some items := by
  induction items with
  | nil => rfl
  | cons x xs ih => simp [decodeItems, decodeItem_encodeItem, ih]

/-- C2: for every cart state reachable by the mutation operations from the
empty cart, deserializing the persisted representation (what the persistence
effect stores after the last mutation) yields a collection equal to the
in-memory collection. -/
theorem cart_persist_roundtrip (ops : List CartOp) :
    decodeCart (encodeCart (runOps [] ops)) = some (runOps [] ops) := by
  simp [decodeCart, encodeCart, decodeItems_map_encodeItem]

/-- Counterexample for C5 as stated: the single-call sequence
`addToCart(sampleProduct, 0)` from the empty cart leaves an entry whose
quantity is 0, not >= 1 (the add path performs no quantity validation). -/
theorem cart_quantity_positive_counterexample :
    ¬ (∀ i ∈ runOps [] [CartOp.add sampleProduct 0], 1 ≤ i.quantity) := by
  decide

theorem applyOp_preserves_pos (items : List CartItem) (op : CartOp)
    (hinv : ∀ i ∈ items, 1 ≤ i.quantity)
    (hop : ∀ p q, op = CartOp.add p q → 1 ≤ q) :
    ∀ i ∈ applyOp items op, 1 ≤ i.quantity := by
  cases op with
  | add p q =>
    have hq : 1 ≤ q := hop p q rfl
    simp only [applyOp, addToCart]
    cases hfind : items.find? (fun item => item.productId == p.id) with
    | some ex =>
      intro i hi
      simp only [List.mem_map] at hi
      obtain ⟨j, hj, rfl⟩ := hi
      by_cases hc : (j.productId == p.id) = true
      · simp only [hc, if_true]
        have := hinv j hj
        omega
      · simp only [hc, if_false]
        exact hinv j hj
    | none =>
      intro i hi
      simp only [List.mem_append, List.mem_singleton] at hi
      rcases hi with hi | rfl
      · exact hinv i hi
      · exact hq
  | remove pid =>
    intro i hi
    simp only [applyOp, removeFromCart, List.mem_filter] at hi
    exact hinv i hi.1
  | update pid q =>
    simp only [applyOp, updateQuantity]
    by_cases hlt : q < 1
    · simp only [hlt, if_true]
      intro i hi
      simp only [removeFromCart, List.mem_filter] at hi
      exact hinv i hi.1
    · simp only [hlt, if_false]
      intro i hi
      simp only [List.mem_map] at hi
      obtain ⟨j, hj, rfl⟩ := hi
      by_cases hc : (j.productId == pid) = true
      · simp only [hc, if_true]
        omega
      · simp only [hc, if_false]
        exact hinv j hj
  | clear =>
    intro i hi
    simp [applyOp, clearCart] at hi

theorem runOps_preserves_pos (ops : List CartOp) (items : List CartItem)
    (hinv : ∀ i ∈ items, 1 ≤ i.quantity)
    (hops : ∀ p q, CartOp.add p q ∈ ops → 1 ≤ q) :
    ∀ i ∈ runOps items ops, 1 ≤ i.quantity := by
  induction ops generalizing items with
  | nil => simpa [runOps] using hinv
  | cons op ops ih =>
    show ∀ i ∈ runOps (applyOp items op) ops, 1 ≤ i.quantity
    refine ih (applyOp items op) ?_ ?_
    · exact applyOp_preserves_pos items op hinv
        (fun p q hpq => hops p q (by rw [← hpq]; exact List.mem_cons_self _ _))
    · exact fun p q hm => hops p q (List.mem_cons_of_mem _ hm)

/-- C5 (amended): provided every `addToCart` call in the sequence passes a
quantity >= 1 (which includes the default of 1), every entry in the cart after
any sequence of addToCart, removeFromCart, updateQuantity and clearCart calls
from the empty cart has quantity >= 1. -/
theorem cart_quantities_positive (ops : List CartOp)
    (hops : ∀ p q, CartOp.add p q ∈ ops → 1 ≤ q) :
    ∀ i ∈ runOps [] ops, 1 ≤ i.quantity :=
  runOps_preserves_pos ops [] (by simp) hops

/-- Witness for C5 (amended): after the concrete sequence consisting of one
add with quantity 2, the resulting concrete entry has quantity >= 1. -/
theorem cart_quantities_positive_witness :
    1 ≤ (mkItem sampleProduct 2).quantity :=
  cart_quantities_positive [CartOp.add sampleProduct 2]
    (by
      intro p q hm
      simp only [List.mem_cons, List.not_mem_nil, or_false] at hm
      injection hm with _ h2
      omega)
    (mkItem sampleProduct 2) (by decide)

/-- C9: if the product id is absent from the cart, `removeFromCart` leaves the
collection unchanged and raises no notification; if present, the resulting
cart has no entry with that id, keeps every other entry, and a notification
naming a matching entry's title is raised. -/
theorem removeFromCart_frame (items : List CartItem) (pid : String) :
    ((∀ i ∈ items, i.productId ≠ pid) →
        removeFromCart items pid = (items, none))
    ∧ ((∃ i ∈ items, i.productId = pid) →
        (∀ j ∈ (removeFromCart items pid).1, j.productId ≠ pid)
        ∧ (∀ j ∈ items, j.productId ≠ pid → j ∈ (removeFromCart items pid).1)
        ∧ ∃ i ∈ items, i.productId = pid ∧
            (removeFromCart items pid).2 = some
              { title := "Removed from Cart",
                description := i.title ++ " has been removed",
                variant := some "destructive" }) := by
  constructor
  · intro habs
    have hfind : items.find? (fun i => i.productId == pid) = none := by
      rw [List.find?_eq_none]
      intro x hx
      simpa using habs x hx
    have hfilter : items.filter (fun item => item.productId != pid) = items := by
      rw [List.filter_eq_self]
      intro a ha
      simpa using habs a ha
    simp [removeFromCart, hfind, hfilter]
  · intro hex
    refine ⟨?_, ?_, ?_⟩
    · intro j hj
      simp only [removeFromCart, List.mem_filter] at hj
      simpa using hj.2
    · intro j hj hne
      simp only [removeFromCart, List.mem_filter]
      exact ⟨hj, by simpa using hne⟩
    · obtain ⟨i, hi, hip⟩ := hex
      cases hfind : items.find? (fun i => i.productId == pid) with
      | none =>
        exfalso
        rw [List.find?_eq_none] at hfind
        exact (show i.productId ≠ pid by simpa using hfind i hi) hip
      | some i0 =>
        refine ⟨i0, List.mem_of_find?_eq_some hfind, ?_, ?_⟩
        · have := List.find?_some hfind
          simpa using this
        · simp [removeFromCart, hfind]

/-- Witness for C9: at a concrete cart where the id is absent, the cart is
unchanged and no toast is raised. -/
theorem removeFromCart_frame_witness :
    removeFromCart [sampleItem] "zzz" = ([sampleItem], none) :=
  (removeFromCart_frame [sampleItem] "zzz").1 (by decide)
